import Mathlib

/-!
Shallow embedding of a GitHub-Actions-to-Discord webhook relay.

The repository has three handler variants:
* `index.js` (namespace `IndexJs`): plain `http` server, richest formatter
  with per-file breakdown chunking and branch-wide LOC totals;
* `webhook.js` (namespace `WebhookJs`): minimal serverless handler;
* an unnamed express variant (namespace `Part000`): adds a check-run
  summarizer and commit statistics.

Network fetches are modelled as oracle inputs: a successful fetch is
`some data` (the parsed JSON), and any transport error, non-2xx status or
JSON parse failure is `none`.  JavaScript exceptions are modelled as
`none` results of `Option`-valued functions; JS strings are modelled as
Lean `String` (sequences of unicode scalars).  The emoji string literals
of `index.js` are mojibake in the source file (valid UTF-8 after a
cp1252 round-trip); they are reproduced here byte for byte using
unicode escapes.
-/

/-- One field of a Discord embed: `{name, value, inline}`. -/
structure EmbedField where
  name : String
  value : String
  inline : Bool
deriving Repr, DecidableEq

/-- A Discord embed `{title, color, fields, footer: {text}}`. -/
structure Embed where
  title : String
  color : Nat
  fields : List EmbedField
  footerText : String
deriving Repr, DecidableEq

/-- JS truthiness of a possibly-absent string: `undefined`, `null` and the
empty string are falsy. -/
def truthy : Option String → Bool
  | none => false
  | some s => s != ""

/-- Model of `String.prototype.toUpperCase` restricted to the ASCII
range, which covers every conclusion string GitHub emits. -/
def toUpperCase (s : String) : String :=
  String.mk (s.toList.map Char.toUpper)

/-- Worker for `toBatches`, structurally recursive on a fuel argument so
that it reduces inside the kernel; the fuel never runs out when it starts
at the list length. -/
def toBatchesFuel (n : Nat) : Nat → List α → List (List α)
  | _, [] => []
  | 0, l => [l]
  | fuel + 1, x :: xs =>
    match n with
    | 0 => [x :: xs]
    | m + 1 => (x :: xs.take m) :: toBatchesFuel n fuel (xs.drop m)

/-- Model of the `blobs.slice(i, i + batchSize)` loop from `getFullBranchStats`:
splits a list into consecutive batches of size `n`. -/
def toBatches (n : Nat) (l : List α) : List (List α) :=
  toBatchesFuel n l.length l

theorem toBatchesFuel_flatten (n fuel : Nat) (l : List α) (h : l.length ≤ fuel) :
    (toBatchesFuel n fuel l).flatten = l := by
  induction fuel generalizing l with
  | zero =>
    cases l with
    | nil => simp [toBatchesFuel]
    | cons x xs => simp at h
  | succ fuel ih =>
    cases l with
    | nil => simp [toBatchesFuel]
    | cons x xs =>
      cases n with
      | zero => simp [toBatchesFuel]
      | succ m =>
        simp only [toBatchesFuel, List.flatten_cons]
        rw [ih (xs.drop m) (by simp only [List.length_drop]; simp at h; omega)]
        simp [List.take_append_drop]

theorem toBatches_flatten (n : Nat) (l : List α) : (toBatches n l).flatten = l :=
  toBatchesFuel_flatten n l.length l (Nat.le_refl _)

/-- Folding `acc + g x` over a list is the sum of the images. -/
theorem foldl_add_map (g : α → Nat) (l : List α) (a : Nat) :
    l.foldl (fun acc x => acc + g x) a = a + (l.map g).sum := by
  induction l generalizing a with
  | nil => simp
  | cons x xs ih => simp [ih (a + g x), Nat.add_assoc]

/-- Summing over batches of a list equals summing over the list. -/
theorem toBatches_sum (n : Nat) (g : α → Nat) (l : List α) :
    ((toBatches n l).map (fun batch => (batch.map g).sum)).sum = (l.map g).sum := by
  conv_rhs => rw [← toBatches_flatten n l]
  rw [List.map_flatten, List.sum_flatten, List.map_map]
  rfl

/-- Elements on which `g` vanishes can be dropped from a sum. -/
theorem sum_map_filter_of_zero (g : α → Nat) (p : α → Bool) (l : List α)
    (h : ∀ a ∈ l, p a = false → g a = 0) :
    (l.map g).sum = ((l.filter p).map g).sum := by
  induction l with
  | nil => simp
  | cons x xs ih =>
    have hxs : ∀ a ∈ xs, p a = false → g a = 0 := fun a ha => h a (List.mem_cons_of_mem x ha)
    cases hx : p x with
    | true => simp [List.filter_cons, hx, ih hxs]
    | false => simp [List.filter_cons, hx, h x (List.mem_cons_self x xs) hx, ih hxs]

/-- Model of `Number.prototype.toLocaleString()` under the default `en-US` locale:
decimal digits grouped in threes by commas. -/
def toLocaleString (n : Nat) : String :=
  let rds := (toString n).toList.reverse
  String.mk (((toBatches 3 rds).intersperse [',']).flatten.reverse)

/-- Hexadecimal digit of a value below 16, lowercase as in `JSON.stringify`. -/
def hexDigit (n : Nat) : Char :=
  if n < 10 then Char.ofNat (48 + n) else Char.ofNat (87 + n)

/-- Four-digit hexadecimal rendering used in `\uXXXX` escapes. -/
def hex4 (n : Nat) : String :=
  String.mk [hexDigit (n / 4096 % 16), hexDigit (n / 256 % 16), hexDigit (n / 16 % 16),
    hexDigit (n % 16)]

/-- Escaping of one character inside a JSON string literal, as done by
`JSON.stringify` (non-ASCII characters are kept verbatim). -/
def jsonEscapeChar (c : Char) : String :=
  if c == '"' then "\\\""
  else if c == '\\' then "\\\\"
  else if c == '\n' then "\\n"
  else if c == '\r' then "\\r"
  else if c == '\t' then "\\t"
  else if c.toNat == 8 then "\\b"
  else if c.toNat == 12 then "\\f"
  else if c.toNat < 32 then "\\u" ++ hex4 c.toNat
  else String.singleton c

/-- A JSON string literal for `s`. -/
def jsonStr (s : String) : String :=
  "\"" ++ String.join (s.toList.map jsonEscapeChar) ++ "\""

/-- Rendering of one embed field object as `JSON.stringify` emits it. -/
def serializeField (f : EmbedField) : String :=
  "\x7b\"name\":" ++ jsonStr f.name ++ ",\"value\":" ++ jsonStr f.value ++
    ",\"inline\":" ++ (if f.inline then "true" else "false") ++ "\x7d"

/-- Rendering of one embed object as `JSON.stringify` emits it. -/
def serializeEmbed (e : Embed) : String :=
  "\x7b\"title\":" ++ jsonStr e.title ++ ",\"color\":" ++ toString e.color ++
    ",\"fields\":[" ++ String.intercalate "," (e.fields.map serializeField) ++
    "],\"footer\":\x7b\"text\":" ++ jsonStr e.footerText ++ "\x7d\x7d"

/-- A `workflow_run` object of the inbound GitHub payload; the union of the
fields the three variants read.  `conclusion` is `none` while the run is
still in progress; `jobs_url`, `head_sha` and `repository.full_name` are
`none` when absent from the payload. -/
structure WRun where
  name : String
  run_number : Nat
  conclusion : Option String
  head_branch : String
  html_url : String
  actor_login : String
  completed_at : String
  jobs_url : Option String
  head_sha : Option String
  repository_full_name : Option String
  repository_url : String
deriving Repr, DecidableEq

/-- The parsed inbound webhook body; `workflow_run` is `none` when the key
is absent (or null). -/
structure Payload where
  workflow_run : Option WRun
deriving Repr, DecidableEq

/-- One step of a job, as returned by the jobs API. -/
structure Step where
  name : String
  conclusion : Option String
deriving Repr, DecidableEq

/-- One job of the jobs API response; `steps` is `none` when the key is
absent. -/
structure Job where
  name : String
  conclusion : Option String
  steps : Option (List Step)
deriving Repr, DecidableEq

/-- Parsed body of the jobs API response. -/
structure JobsData where
  jobs : Option (List Job)
deriving Repr, DecidableEq

/-- One entry of `commitData.files`. -/
structure CommitFile where
  filename : String
  additions : Nat
  deletions : Nat
  changes : Nat
  status : String
deriving Repr, DecidableEq

/-- The `stats` object of a commit lookup. -/
structure CommitStatsObj where
  additions : Nat
  deletions : Nat
deriving Repr, DecidableEq

/-- Parsed body of a commit lookup. -/
structure CommitData where
  stats : Option CommitStatsObj
  files : Option (List CommitFile)
deriving Repr, DecidableEq

/-- One entry of the recursive git tree listing. -/
structure TreeItem where
  type : String
  sha : String
deriving Repr, DecidableEq

/-- Parsed body of a git blob lookup. -/
structure BlobData where
  encoding : String
  content : String
deriving Repr, DecidableEq

namespace IndexJs

/-- Inputs (from `src/index.js`) of the pure formatting section of
`handleWorkflowRun` (lines 185-272), after enrichment. -/
structure FormatInput where
  runName : String
  runNumber : Nat
  conclusion : Option String
  failedJobsText : String
  locAdded : Nat
  filesChanged : Nat
  fileLOCLines : List String
  totalBranchLOC : Nat
  totalBranchFiles : Nat
deriving Repr, DecidableEq

/-- Line 114: `failed = status !== "success" && status !== null`. -/
def isFailed (conclusion : Option String) : Bool :=
  conclusion != some "success" && conclusion.isSome

/-- Label `statusLabel` of line 186; a null status would be printed as the text
`null` by template interpolation, but the failed branch is reached only on
non-null conclusions. -/
def statusLabelOf (conclusion : Option String) : String :=
  if isFailed conclusion then "âŒ FAILED (" ++ conclusion.getD "null" ++ ")"
  else "âœ… PASSED"

/-- Greedy chunking of the per-file breakdown lines (lines 224-235):
lines are packed into a growing `current` chunk; when appending the next
line would exceed 1024 characters, `current` is pushed (even when it is
still the empty string) and the line starts a new chunk; a final
non-empty `current` is pushed at the end. -/
def chunkLines (lines : List String) : List String :=
  let p := lines.foldl
    (fun (acc : List String × String) (line : String) =>
      let next := if acc.2 != "" then acc.2 ++ "\n" ++ line else line
      if next.length > 1024 then (acc.1 ++ [acc.2], line) else (acc.1, next))
    ([], "")
  if p.2 != "" then p.1 ++ [p.2] else p.1

/-- Field name `"Lines Added (this commit)"` with its mojibake icon. -/
def nameLinesAdded : String := "ðŸ“ Lines Added (this commit)"

/-- Field name `"Files Changed (this commit)"` with its mojibake icon. -/
def nameFilesChanged : String := "ðŸ“ Files Changed (this commit)"

/-- Field name `"Total Files in Branch"` with its mojibake icon. -/
def nameTotalFiles : String := "ðŸ—‚ï¸ Total Files in Branch"

/-- Field name `"Total LOC in Branch"` with its mojibake icon. -/
def nameTotalLOC : String := "ðŸ“ Total LOC in Branch"

/-- The fields pushed before the file-breakdown chunks (lines 188-220):
workflow identity, status, the optional failed-jobs detail (truncated to
1024 characters), lines added and files changed. -/
def preFields (d : FormatInput) : List EmbedField :=
  let fields : List EmbedField := [
    ⟨"ðŸ” Workflow", "`" ++ d.runName ++ "`", true⟩,
    ⟨"ðŸ“Š Status", statusLabelOf d.conclusion, true⟩]
  let fields := if isFailed d.conclusion && d.failedJobsText != "" then
      fields ++ [⟨"ðŸ’¥ Failed Jobs & Steps", d.failedJobsText.take 1024, false⟩]
    else fields
  fields ++ [
    ⟨nameLinesAdded, "**+" ++ toLocaleString d.locAdded ++ "** lines", true⟩,
    ⟨nameFilesChanged,
      "**" ++ toString d.filesChanged ++ "** file" ++ (if d.filesChanged != 1 then "s" else ""),
      true⟩]

/-- The file-breakdown chunk fields (lines 222-248): at most
`25 - fields.length - 2` chunks are kept, the first labelled
`File Breakdown (this commit)` and the rest `File Breakdown (cont. n)`. -/
def breakdownFields (d : FormatInput) : List EmbedField :=
  if d.fileLOCLines.length > 0 then
    let chunks := chunkLines d.fileLOCLines
    let maxChunks := min chunks.length (25 - (preFields d).length - 2)
    (chunks.take maxChunks).enum.map (fun p =>
      ⟨if p.1 == 0 then "ðŸ“‚ File Breakdown (this commit)"
        else "ðŸ“‚ File Breakdown (cont. " ++ toString (p.1 + 1) ++ ")",
       p.2, false⟩)
  else []

/-- The branch-total fields pushed last (lines 251-261). -/
def tailFields (d : FormatInput) : List EmbedField :=
  [⟨nameTotalFiles, "**" ++ toLocaleString d.totalBranchFiles ++ "** files", true⟩,
   ⟨nameTotalLOC, "**" ++ toLocaleString d.totalBranchLOC ++ "** lines", true⟩]

/-- The embed built by `handleWorkflowRun` (lines 185-272). -/
def formatEmbed (d : FormatInput) : Embed :=
  ⟨if isFailed d.conclusion then "ðŸš¨ GitHub Actions â€” Build Failed"
    else "âœ… GitHub Actions â€” Build Passed",
   if isFailed d.conclusion then 0xe74c3c else 0x2ecc71,
   preFields d ++ breakdownFields d ++ tailFields d,
   "Run #" ++ toString d.runNumber⟩

/-- Body `JSON.stringify({ embeds: [embed] })` from `sendDiscordEmbed` (line 9),
applied to the formatted embed. -/
def embedPayload (d : FormatInput) : String :=
  "\x7b\"embeds\":[" ++ serializeEmbed (formatEmbed d) ++ "]\x7d"

/-- The line rendered for one changed file (lines 166-169); the display
name is the basename of the file path. -/
def fileLine (f : CommitFile) : String :=
  let name := (f.filename.splitOn "/").getLastD ""
  "`" ++ name ++ "` â€” +" ++ toString f.additions ++ " / -" ++
    toString f.deletions ++ " (" ++ toString f.changes ++ " changes)"

/-- One line of the failed-steps detail (line 142). -/
def stepLine (s : Step) : String :=
  "    â†³ Step: **" ++ s.name ++ "**"

/-- The text rendered for one failed job (lines 139-144); `none` models the
TypeError thrown when the job has no `steps` array. -/
def jobText (j : Job) : Option String :=
  match j.steps with
  | none => none
  | some steps =>
    let failedSteps := String.intercalate "\n"
      ((steps.filter (fun s => s.conclusion == some "failure")).map stepLine)
    some ("âŒ **" ++ j.name ++ "**\n" ++
      (if failedSteps != "" then failedSteps else "    â†³ Unknown step"))

/-- Text `failedJobsText` as computed in lines 130-151 from the jobs fetch
result; any throw inside the `try` (failed fetch, or a failed job without
steps) yields the fallback text. -/
def failedJobsTextOf (resp : Option JobsData) : String :=
  match resp with
  | none => "Could not retrieve job details."
  | some jobsData =>
    let failedJobs := (jobsData.jobs.getD []).filter (fun j => j.conclusion == some "failure")
    if failedJobs.length > 0 then
      match failedJobs.mapM jobText with
      | none => "Could not retrieve job details."
      | some texts => String.intercalate "\n\n" texts
    else ""

/-- The number of lines `content.split("\n").length` assigns to a decoded
file: the number of newline-separated segments, i.e. one more than the
number of newline characters. -/
def countLines (s : String) : Nat := (s.toList.splitOn '\n').length

/-- Branch totals (lines 73-107). -/
structure BranchStats where
  totalLOC : Nat
  totalFiles : Nat
deriving Repr, DecidableEq

/-- The LOC contribution of one blob (lines 90-102): 0 when the fetch
fails (the per-blob try/catch absorbs the error) or the blob is not a
non-empty base64 payload; otherwise the line count of the decoded
content. -/
def blobLineCount (decode : String → String) (fetchBlob : String → Option BlobData)
    (sha : String) : Nat :=
  match fetchBlob sha with
  | none => 0
  | some blobData =>
    if blobData.encoding == "base64" && blobData.content != "" then
      countLines (decode blobData.content)
    else 0

/-- Function `getFullBranchStats` (lines 73-107): `none` when the tree fetch itself
throws; otherwise the blob count and the batched (batch size 10) sum of
per-blob line counts. -/
def getFullBranchStats (decode : String → String) (fetchBlob : String → Option BlobData)
    (treeResp : Option (List TreeItem)) : Option BranchStats :=
  match treeResp with
  | none => none
  | some treeData =>
    let blobs := treeData.filter (fun item => item.type == "blob")
    let totalLOC := (toBatches 10 blobs).foldl
      (fun acc batch => acc + (batch.map (fun blob => blobLineCount decode fetchBlob blob.sha)).sum)
      0
    some ⟨totalLOC, blobs.length⟩

/-- The fetch results `handleWorkflowRun` may consume, plus the base64
decoder; `none` models a failed fetch. -/
structure Oracles where
  jobs : Option JobsData
  commit : Option CommitData
  tree : Option (List TreeItem)
  blob : String → Option BlobData
  decode : String → String

/-- Observable effects of one `handleWorkflowRun` invocation: how many
GitHub API requests were issued and the embed POSTed to Discord
(`none` = no Discord call). -/
structure Effects where
  githubCalls : Nat
  discordEmbed : Option Embed
deriving Repr, DecidableEq

/-- Function `handleWorkflowRun` (lines 109-275) as a function of the payload and
the fetch oracles. -/
def handleWorkflowRun (payload : Payload) (o : Oracles) : Effects :=
  match payload.workflow_run with
  | none => ⟨0, none⟩
  | some run =>
    match run.conclusion with
    | none => ⟨0, none⟩
    | some status =>
      let failed := status != "success"
      let jobsFetched := failed && truthy run.jobs_url
      let failedJobsText := if jobsFetched then failedJobsTextOf o.jobs else ""
      let commitPart := truthy run.repository_full_name && truthy run.head_sha
      let locAdded := if commitPart then
          match o.commit with
          | some commitData =>
            match commitData.stats with
            | some stats => stats.additions
            | none => 0
          | none => 0
        else 0
      let commitFiles := if commitPart then
          match o.commit with
          | some commitData =>
            match commitData.files with
            | some fs => if fs.length > 0 then fs else []
            | none => []
          | none => []
        else []
      let filesChanged := commitFiles.length
      let fileLOCLines := commitFiles.map fileLine
      let branch := if commitPart then getFullBranchStats o.decode o.blob o.tree else none
      let totalBranchLOC := match branch with | some b => b.totalLOC | none => 0
      let totalBranchFiles := match branch with | some b => b.totalFiles | none => 0
      let githubCalls := (if jobsFetched then 1 else 0) +
        (if commitPart then
          2 + (match o.tree with
               | some t => (t.filter (fun item => item.type == "blob")).length
               | none => 0)
         else 0)
      ⟨githubCalls,
       some (formatEmbed ⟨run.name, run.run_number, some status, failedJobsText, locAdded,
         filesChanged, fileLOCLines, totalBranchLOC, totalBranchFiles⟩)⟩

/-- Outcome of one request against the `http.createServer` handler
(lines 277-301). -/
structure ServerOutcome where
  status : Nat
  effects : Effects
deriving Repr, DecidableEq

/-- The `http.createServer` handler (lines 277-301): non-POST → 405; a
body that fails to parse as JSON → 500; `workflow_run` events run
`handleWorkflowRun` (a rejected Discord POST surfaces as 500); all other
events are acknowledged with 200 and no effect. -/
def server (method : String) (event : String) (body : Option Payload) (o : Oracles)
    (discordOk : Bool) : ServerOutcome :=
  if method != "POST" then ⟨405, ⟨0, none⟩⟩
  else
    match body with
    | none => ⟨500, ⟨0, none⟩⟩
    | some payload =>
      if event == "workflow_run" then
        let eff := handleWorkflowRun payload o
        match eff.discordEmbed with
        | some _ => if discordOk then ⟨200, eff⟩ else ⟨500, eff⟩
        | none => ⟨200, eff⟩
      else ⟨200, ⟨0, none⟩⟩

end IndexJs

namespace WebhookJs

/-- Outcome of one request against the `src/webhook.js` handler:
`response = none` models an exception escaping the handler (no response
is written by the handler code); `discordCalled` records whether the
Discord webhook POST was attempted. -/
structure Outcome where
  response : Option Nat
  discordCalled : Bool
deriving Repr, DecidableEq

/-- The `if/else` chain of `sendToDiscord` (`src/webhook.js` lines 43-62):
color, emoji and status text for a conclusion.  A null status falls into
the final `else` branch, where `status.toUpperCase()` throws a TypeError
(modelled as `none`). -/
def statusTriple (status : Option String) : Option (Nat × String × String) :=
  if status == some "success" then some (3066993, "✅", "BUILD SUCCESSFUL")
  else if status == some "failure" then some (15158332, "❌", "BUILD FAILED")
  else if status == some "cancelled" then some (9807270, "⏹️", "BUILD CANCELLED")
  else
    match status with
    | some s => some (9807270, "⚠️", toUpperCase s)
    | none => none

/-- The embed of the Discord message built by `sendToDiscord`
(`src/webhook.js` lines 64-105); `none` when computing the status text
throws. -/
def buildMessageEmbed (status : Option String) (workflowName branch actorLogin : String) :
    Option Embed :=
  (statusTriple status).map (fun info =>
    ⟨info.2.1 ++ " " ++ workflowName, info.1,
     [⟨"Status", "**" ++ info.2.2 ++ "**", true⟩,
      ⟨"Branch", branch, true⟩,
      ⟨"Triggered by", actorLogin, false⟩],
     "GitHub Actions APK Builder"⟩)

/-- The `src/webhook.js` handler: non-POST → 405; a non-`workflow_run`
event → 200 "Event ignored"; a payload without `workflow_run` throws when
its fields are read; `sendToDiscord` returns silently when the webhook
URL is not configured and throws on a null conclusion before any fetch;
otherwise the Discord POST is attempted (its own failure is caught) and
the handler answers 200. -/
def handler (method event : String) (payload : Payload) (webhookConfigured : Bool) : Outcome :=
  if method != "POST" then ⟨some 405, false⟩
  else if event != "workflow_run" then ⟨some 200, false⟩
  else
    match payload.workflow_run with
    | none => ⟨none, false⟩
    | some run =>
      if !webhookConfigured then ⟨some 200, false⟩
      else
        match statusTriple run.conclusion with
        | none => ⟨none, false⟩
        | some _ => ⟨some 200, true⟩

end WebhookJs

namespace Part000

/-- Result of the check-run summarizer `fetchCheckRunDetails`
(`src/unnamed/part_000` lines 137-142). -/
structure CheckDetails where
  passed : Nat
  failed : Nat
  failedTests : List String
  total : Nat
deriving Repr, DecidableEq

/-- The per-step classification of `fetchCheckRunDetails`
(lines 126-135): a step with conclusion `success` increments the passed
count, one with conclusion `failure` increments the failed count and
records the step name; every other conclusion touches neither bucket. -/
def stepAccum (acc : Nat × Nat × List String) (s : Step) : Nat × Nat × List String :=
  if s.conclusion == some "success" then (acc.1 + 1, acc.2.1, acc.2.2)
  else if s.conclusion == some "failure" then (acc.1, acc.2.1 + 1, acc.2.2 ++ [s.name])
  else acc

/-- Function `fetchCheckRunDetails` (lines 103-147): `none` when the fetch fails
(non-ok response, transport error or JSON error all `return null`);
otherwise the step conclusions of all jobs are folded into pass/fail
counts and the failed step names. -/
def fetchCheckRunDetails (resp : Option JobsData) : Option CheckDetails :=
  match resp with
  | none => none
  | some jobsData =>
    let jobs := jobsData.jobs.getD []
    let acc := jobs.foldl (fun a j => (j.steps.getD []).foldl stepAccum a) (0, 0, [])
    some ⟨acc.1, acc.2.1, acc.2.2, acc.1 + acc.2.1⟩

/-- Result of `fetchCommitStats` (lines 88-96). -/
structure CommitStatsResult where
  additions : Nat
  deletions : Nat
  total : Nat
  filesAdded : Nat
  filesModified : Nat
  filesDeleted : Nat
  filesTotal : Nat
deriving Repr, DecidableEq

/-- Function `fetchCommitStats` (lines 57-101): `none` when the fetch fails;
otherwise per-status file counts and the addition/deletion totals. -/
def fetchCommitStats (resp : Option CommitData) : Option CommitStatsResult :=
  match resp with
  | none => none
  | some commitData =>
    let files := commitData.files.getD []
    let filesAdded := (files.filter (fun f => f.status == "added")).length
    let filesModified := (files.filter (fun f => f.status == "modified")).length
    let filesDeleted := (files.filter (fun f => f.status == "deleted")).length
    let adds := match commitData.stats with | some st => st.additions | none => 0
    let dels := match commitData.stats with | some st => st.deletions | none => 0
    some ⟨adds, dels, adds + dels, filesAdded, filesModified, filesDeleted, files.length⟩

/-- The `if/else` chain of this variant's `sendToDiscord`
(lines 157-176); identical to the one in `src/webhook.js`, including the
TypeError on a null status. -/
def statusTriple (status : Option String) : Option (Nat × String × String) :=
  if status == some "success" then some (3066993, "✅", "BUILD SUCCESSFUL")
  else if status == some "failure" then some (15158332, "❌", "BUILD FAILED")
  else if status == some "cancelled" then some (9807270, "⏹️", "BUILD CANCELLED")
  else
    match status with
    | some s => some (9807270, "⚠️", toUpperCase s)
    | none => none

/-- The field list built by `sendToDiscord` (lines 179-226): status,
optionally checks summary and failed tests, optionally commit line and
file statistics. -/
def buildFields (statusText : String) (checkDetails : Option CheckDetails)
    (commitStats : Option CommitStatsResult) : List EmbedField :=
  let fields : List EmbedField := [⟨"Status", "**" ++ statusText ++ "**", true⟩]
  let fields := match checkDetails with
    | some cd =>
      if cd.total > 0 then
        fields ++ [⟨"Checks",
          "✅ " ++ toString cd.passed ++ " / " ++ toString cd.total ++ " checks passed",
          false⟩] ++
        (if cd.failedTests.length > 0 then
          [⟨"Failed Tests",
            String.intercalate "\n" (cd.failedTests.map (fun t => "❌ " ++ t)), false⟩]
         else [])
      else fields
    | none => fields
  match commitStats with
  | some cs =>
    fields ++
      [⟨"Lines Changed",
        "➕ " ++ toString cs.additions ++ " additions\n➖ " ++ toString cs.deletions ++
          " deletions", false⟩,
       ⟨"Files Changed",
        "📄 " ++ toString cs.filesAdded ++ " added\n✏️ " ++ toString cs.filesModified ++
          " modified\n🗑️ " ++ toString cs.filesDeleted ++ " deleted", false⟩]
  | none => fields

/-- Inputs of the message construction in `sendToDiscord`
(lines 149-240). -/
structure NotifyInput where
  status : Option String
  workflowName : String
  checkDetails : Option CheckDetails
  commitStats : Option CommitStatsResult
deriving Repr, DecidableEq

/-- The embed of the Discord message built by `sendToDiscord`
(lines 228-240); `none` when computing the status text throws on a null
status. -/
def buildMessageEmbed (i : NotifyInput) : Option Embed :=
  (statusTriple i.status).map (fun info =>
    ⟨info.2.1 ++ " " ++ i.workflowName, info.1,
     buildFields info.2.2 i.checkDetails i.commitStats,
     "GitHub Actions APK Builder"⟩)

/-- Body `JSON.stringify(discordMessage)` (line 248) for the single-embed
message. -/
def messageBody (i : NotifyInput) : Option String :=
  (buildMessageEmbed i).map (fun e => "\x7b\"embeds\":[" ++ serializeEmbed e ++ "]\x7d")

/-- Fetch results available to this variant's handler. -/
structure Oracles where
  jobs : Option JobsData
  commit : Option CommitData
deriving Repr, DecidableEq

/-- Outcome of one POST to `/webhook` of the express variant:
`response = none` models the rejected async handler (no response written
by the handler code); `githubCalls` counts the GitHub API requests
issued. -/
structure Outcome where
  response : Option Nat
  discordCalled : Bool
  githubCalls : Nat
deriving Repr, DecidableEq

/-- The `app.post('/webhook')` handler (lines 7-50): non-`workflow_run`
events → 200 "Event ignored"; otherwise both enrichment fetches are
issued, then `sendToDiscord` returns silently when the webhook URL is
missing, throws on a null conclusion, and otherwise attempts the Discord
POST (its own failure is caught); the handler then answers 200. -/
def handler (event : String) (payload : Payload) (webhookConfigured : Bool) (o : Oracles) :
    Outcome :=
  if event != "workflow_run" then ⟨some 200, false, 0⟩
  else
    match payload.workflow_run with
    | none => ⟨none, false, 0⟩
    | some run =>
      let _checkDetails := fetchCheckRunDetails o.jobs
      let _commitStats := fetchCommitStats o.commit
      if !webhookConfigured then ⟨some 200, false, 2⟩
      else
        match statusTriple run.conclusion with
        | none => ⟨none, false, 2⟩
        | some _ => ⟨some 200, true, 2⟩

end Part000


namespace IndexJs

theorem preFields_length (d : FormatInput) :
    (preFields d).length =
      if isFailed d.conclusion && d.failedJobsText != "" then 5 else 4 := by
  by_cases h : isFailed d.conclusion && d.failedJobsText != "" <;> simp [preFields, h]

theorem breakdownFields_length (d : FormatInput) :
    (breakdownFields d).length =
      min (chunkLines d.fileLOCLines).length (25 - (preFields d).length - 2) := by
  by_cases h : d.fileLOCLines.length > 0
  · simp only [breakdownFields, if_pos h, List.length_map, List.enum_length, List.length_take]
    omega
  · have he : d.fileLOCLines = [] := List.length_eq_zero.mp (by omega)
    simp [breakdownFields, he, chunkLines]

end IndexJs

/-- Claim C3: for every input to the formatter, the emitted embed has at
most 25 fields; the number of file-breakdown chunk fields equals the
minimum of the available chunks and 25 minus the fields already used
minus a safety margin of 2, and chunks beyond that budget are simply
absent from the output (the formatter is total, so no error is raised). -/
theorem embed_respects_field_cap (d : IndexJs.FormatInput) :
    (IndexJs.formatEmbed d).fields.length ≤ 25 ∧
    (IndexJs.breakdownFields d).length =
      min (IndexJs.chunkLines d.fileLOCLines).length (25 - (IndexJs.preFields d).length - 2) ∧
    (IndexJs.formatEmbed d).fields.length =
      (IndexJs.preFields d).length + (IndexJs.breakdownFields d).length + 2 := by
  have hpre := IndexJs.preFields_length d
  have hbd := IndexJs.breakdownFields_length d
  have htot : (IndexJs.formatEmbed d).fields.length =
      (IndexJs.preFields d).length + (IndexJs.breakdownFields d).length + 2 := by
    simp [IndexJs.formatEmbed, IndexJs.tailFields]
    omega
  refine ⟨?_, hbd, htot⟩
  rw [htot, hbd]
  by_cases h : IndexJs.isFailed d.conclusion && d.failedJobsText != "" <;>
    rw [hpre] <;> simp [h] <;> omega

/-- A breakdown line of 1025 identical characters, used to exercise the
chunking logic on an oversized single line. -/
def overLine : String := String.mk (List.replicate 1025 'a')

/-- A formatter input whose per-file breakdown consists of the single
oversized line. -/
def overInput : IndexJs.FormatInput := ⟨"w", 1, some "success", "", 0, 1, [overLine], 0, 0⟩

set_option maxRecDepth 100000 in
/-- Claim C2: evaluating the formatter on a breakdown whose single line
has 1025 characters shows the 1024-character bound is violated: the
chunker first pushes the still-empty current chunk and then the oversized
line as its own chunk, so the embed carries one field with an empty value
and one whose value has 1025 characters. -/
theorem oversize_line_escapes_limit :
    IndexJs.chunkLines [overLine] = ["", overLine] ∧
    ((IndexJs.formatEmbed overInput).fields.filter
      (fun f => decide (1024 < f.value.length))).length = 1 ∧
    ((IndexJs.formatEmbed overInput).fields.map (fun f => f.value.length)).contains 1025 = true := by
  refine ⟨by decide, by decide, by decide⟩

/-- Claim C5: when the blob fetch for `bad` fails, `getFullBranchStats`
still completes (the per-blob try/catch absorbs the error without
aborting the rest of its batch), reports every blob in the file count,
and its total line count is exactly the sum of the per-blob line counts
of the remaining blobs. -/
theorem branch_walk_survives_one_failure (decode : String → String)
    (fetchBlob : String → Option BlobData) (tree : List TreeItem) (bad : String)
    (h : fetchBlob bad = none) :
    (IndexJs.getFullBranchStats decode fetchBlob (some tree)).isSome = true ∧
    IndexJs.getFullBranchStats decode fetchBlob (some tree) =
      some ⟨(((tree.filter (fun item => item.type == "blob")).filter
               (fun blob => blob.sha != bad)).map
               (fun blob => IndexJs.blobLineCount decode fetchBlob blob.sha)).sum,
            (tree.filter (fun item => item.type == "blob")).length⟩ := by
  refine ⟨rfl, ?_⟩
  simp only [IndexJs.getFullBranchStats, Option.some.injEq, IndexJs.BranchStats.mk.injEq,
    and_true]
  rw [foldl_add_map, Nat.zero_add, toBatches_sum]
  exact sum_map_filter_of_zero _ _ _ (fun blob _ hb => by
    have hsha : blob.sha = bad := by simpa using hb
    simp [IndexJs.blobLineCount, hsha, h])

/-- A small tree with three blobs and one directory entry. -/
def treeW : List TreeItem := [⟨"blob", "b1"⟩, ⟨"blob", "b2"⟩, ⟨"blob", "b3"⟩, ⟨"tree", "d"⟩]

/-- A blob oracle where the fetch of `b2` fails and the others return
decodable content. -/
def fetchBlobW : String → Option BlobData := fun sha =>
  if sha == "b2" then none
  else if sha == "b1" then some ⟨"base64", "x\ny\nz"⟩
  else some ⟨"base64", "p\nq"⟩

/-- Witness for claim C5 at a concrete tree and blob oracle. -/
theorem branch_walk_survives_one_failure_witness :
    fetchBlobW "b2" = none ∧
    ((IndexJs.getFullBranchStats id fetchBlobW (some treeW)).isSome = true ∧
     IndexJs.getFullBranchStats id fetchBlobW (some treeW) =
       some ⟨(((treeW.filter (fun item => item.type == "blob")).filter
                (fun blob => blob.sha != "b2")).map
                (fun blob => IndexJs.blobLineCount id fetchBlobW blob.sha)).sum,
             (treeW.filter (fun item => item.type == "blob")).length⟩) :=
  ⟨rfl, branch_walk_survives_one_failure id fetchBlobW treeW "b2" rfl⟩

/-- An oracle record where every fetch fails; adequate for paths that
never fetch. -/
def oraEmpty : IndexJs.Oracles := ⟨none, none, none, fun _ => none, id⟩

/-- Claim C9: a payload without a `workflow_run` object makes
`handleWorkflowRun` return before any fetch or Discord call; the function
is total on this path (the `if (!run) return` guard precedes every
dereference), so nothing is thrown. -/
theorem handle_without_run (payload : Payload) (o : IndexJs.Oracles)
    (h : payload.workflow_run = none) :
    IndexJs.handleWorkflowRun payload o = ⟨0, none⟩ := by
  simp [IndexJs.handleWorkflowRun, h]

/-- Witness for claim C9 at the concrete empty payload. -/
theorem handle_without_run_witness :
    (⟨none⟩ : Payload).workflow_run = none ∧
    IndexJs.handleWorkflowRun ⟨none⟩ oraEmpty = ⟨0, none⟩ :=
  ⟨rfl, handle_without_run ⟨none⟩ oraEmpty rfl⟩

/-- A complete `workflow_run` object whose conclusion is null (run still
in progress). -/
def runNull : WRun :=
  ⟨"CI", 7, none, "main", "https://github.test/run", "alice", "2024-01-01T00:00:00Z",
   some "https://api.github.test/jobs", some "abc123", some "owner/repo",
   "https://api.github.test/repos/owner/repo"⟩

/-- Payload carrying `runNull`. -/
def payloadNull : Payload := ⟨some runNull⟩

/-- Claim C1: behaviour of the three variants on a null conclusion with
the Discord URL configured.  `index.js` acknowledges 200 with no outbound
call, as the claim states; but `webhook.js` and the express variant throw
a TypeError inside `sendToDiscord` (`status.toUpperCase()` on null)
before the Discord POST, so no 200 response is produced there — and the
express variant has already issued its two GitHub fetches. -/
theorem null_conclusion_three_variants :
    IndexJs.server "POST" "workflow_run" (some payloadNull) oraEmpty true = ⟨200, ⟨0, none⟩⟩ ∧
    WebhookJs.handler "POST" "workflow_run" payloadNull true = ⟨none, false⟩ ∧
    (WebhookJs.handler "POST" "workflow_run" payloadNull true).response ≠ some 200 ∧
    Part000.handler "workflow_run" payloadNull true ⟨none, none⟩ = ⟨none, false, 2⟩ := by
  refine ⟨by decide, by decide, by decide, by decide⟩

/-- Claim C7 counterexample: in `index.js` the body is parsed before the
event-type check, so a POST whose `X-GitHub-Event` is `push` but whose
body is not valid JSON is answered 500, not 200. -/
theorem ignored_event_bad_body_is_500 :
    "push" ≠ "workflow_run" ∧
    (IndexJs.server "POST" "push" none oraEmpty true).status = 500 ∧
    (IndexJs.server "POST" "push" none oraEmpty true).status ≠ 200 := by
  refine ⟨by decide, by decide, by decide⟩

/-- Claim C7 as amended: for every POST whose event type is not
`workflow_run` and whose body parses as JSON, all three variants answer
200 and perform no Discord call and no GitHub API call (`webhook.js` and
the express variant receive an already-parsed body, so the JSON proviso
is vacuous for them). -/
theorem ignored_event_no_effects (event : String) (h : event ≠ "workflow_run") :
    (∀ (payload : Payload) (o : IndexJs.Oracles) (discordOk : Bool),
        IndexJs.server "POST" event (some payload) o discordOk = ⟨200, ⟨0, none⟩⟩) ∧
    (∀ (payload : Payload) (cfg : Bool),
        WebhookJs.handler "POST" event payload cfg = ⟨some 200, false⟩) ∧
    (∀ (payload : Payload) (cfg : Bool) (o : Part000.Oracles),
        Part000.handler event payload cfg o = ⟨some 200, false, 0⟩) := by
  refine ⟨fun payload o discordOk => ?_, fun payload cfg => ?_, fun payload cfg o => ?_⟩
  · simp [IndexJs.server, h]
  · simp [WebhookJs.handler, h]
  · simp [Part000.handler, h]

/-- Witness for claim C7 at the concrete event `push`. -/
theorem ignored_event_no_effects_witness :
    "push" ≠ "workflow_run" ∧
    IndexJs.server "POST" "push" (some ⟨none⟩) oraEmpty true = ⟨200, ⟨0, none⟩⟩ :=
  ⟨by decide, (ignored_event_no_effects "push" (by decide)).1 ⟨none⟩ oraEmpty true⟩

/-- A formatter input whose conclusion is `cancelled`. -/
def cancelledInput : IndexJs.FormatInput := ⟨"w", 1, some "cancelled", "", 0, 0, [], 0, 0⟩

/-- Claim C4 counterexample: in `index.js` a cancelled run is rendered
with the red failure color `0xe74c3c = 15158332` and a `FAILED` label,
not with the gray color `9807270` the claim assigns to `cancelled`. -/
theorem index_cancelled_is_red :
    (IndexJs.formatEmbed cancelledInput).color = 15158332 ∧
    (15158332 : Nat) ≠ 9807270 ∧
    IndexJs.statusLabelOf (some "cancelled") = "âŒ FAILED (cancelled)" := by
  refine ⟨by decide, by decide, by decide⟩

/-- Claim C4 as amended: the three-way classification plus uppercased
fallback holds for `sendToDiscord` in `webhook.js` and in the express
variant; `index.js` instead uses a binary mapping, rendering `success` as
green `PASSED` and every other non-null conclusion (including
`cancelled`) as red `FAILED (<status>)`. -/
theorem status_classification (s : String)
    (h1 : s ≠ "success") (h2 : s ≠ "failure") (h3 : s ≠ "cancelled") :
    WebhookJs.statusTriple (some "success") = some (3066993, "✅", "BUILD SUCCESSFUL") ∧
    WebhookJs.statusTriple (some "failure") = some (15158332, "❌", "BUILD FAILED") ∧
    WebhookJs.statusTriple (some "cancelled") = some (9807270, "⏹️", "BUILD CANCELLED") ∧
    WebhookJs.statusTriple (some s) = some (9807270, "⚠️", toUpperCase s) ∧
    Part000.statusTriple (some "success") = some (3066993, "✅", "BUILD SUCCESSFUL") ∧
    Part000.statusTriple (some "failure") = some (15158332, "❌", "BUILD FAILED") ∧
    Part000.statusTriple (some "cancelled") = some (9807270, "⏹️", "BUILD CANCELLED") ∧
    Part000.statusTriple (some s) = some (9807270, "⚠️", toUpperCase s) ∧
    (∀ (d : IndexJs.FormatInput) (s' : String), d.conclusion = some s' →
      ((IndexJs.formatEmbed d).color = if s' == "success" then 3066993 else 15158332) ∧
      IndexJs.statusLabelOf d.conclusion =
        (if s' == "success" then "âœ… PASSED" else "âŒ FAILED (" ++ s' ++ ")")) := by
  refine ⟨by decide, by decide, by decide, ?_, by decide, by decide, by decide, ?_,
    fun d s' hconc => ?_⟩
  · simp [WebhookJs.statusTriple, h1, h2, h3]
  · simp [Part000.statusTriple, h1, h2, h3]
  · by_cases hs : s' = "success"
    · subst hs
      have hfail : IndexJs.isFailed (some "success") = false := by
        simp [IndexJs.isFailed]
      simp [IndexJs.formatEmbed, IndexJs.statusLabelOf, hconc, hfail]
    · have hfail : IndexJs.isFailed (some s') = true := by
        simp [IndexJs.isFailed, hs]
      constructor
      · simp [IndexJs.formatEmbed, hconc, hfail, hs]
      · simp [IndexJs.statusLabelOf, hconc, hfail, hs]

/-- Witness for claim C4 at the concrete fallback conclusion
`timed_out`. -/
theorem status_classification_witness :
    ("timed_out" ≠ "success" ∧ "timed_out" ≠ "failure" ∧ "timed_out" ≠ "cancelled") ∧
    WebhookJs.statusTriple (some "timed_out") = some (9807270, "⚠️", toUpperCase "timed_out") ∧
    toUpperCase "timed_out" = "TIMED_OUT" :=
  ⟨by refine ⟨by decide, by decide, by decide⟩,
   (status_classification "timed_out" (by decide) (by decide) (by decide)).2.2.2.1,
   by decide⟩

/-- Steps with conclusion `success` among a step list. -/
def passCount (steps : List Step) : Nat :=
  (steps.filter (fun s => s.conclusion == some "success")).length

/-- Steps with conclusion `failure` among a step list. -/
def failCount (steps : List Step) : Nat :=
  (steps.filter (fun s => s.conclusion == some "failure")).length

/-- Names, in order, of the steps with conclusion `failure`. -/
def failNames (steps : List Step) : List String :=
  (steps.filter (fun s => s.conclusion == some "failure")).map Step.name

theorem stepAccum_foldl (steps : List Step) (p f : Nat) (ts : List String) :
    steps.foldl Part000.stepAccum (p, f, ts) =
      (p + passCount steps, f + failCount steps, ts ++ failNames steps) := by
  induction steps generalizing p f ts with
  | nil => simp [passCount, failCount, failNames]
  | cons s rest ih =>
    by_cases h1 : s.conclusion = some "success"
    · simp only [List.foldl_cons, Part000.stepAccum, h1]
      simp only [passCount, failCount, failNames, List.filter_cons]
      simp only [ih, passCount, failCount, failNames]
      simp [h1, Nat.add_assoc, Nat.add_comm 1]
    · by_cases h2 : s.conclusion = some "failure"
      · simp only [List.foldl_cons, Part000.stepAccum, h2]
        simp only [ih, passCount, failCount, failNames, List.filter_cons]
        simp [h1, h2, Nat.add_assoc, Nat.add_comm 1]
      · simp only [List.foldl_cons, Part000.stepAccum]
        have hb1 : (s.conclusion == some "success") = false := by simp [h1]
        have hb2 : (s.conclusion == some "failure") = false := by simp [h2]
        rw [hb1, hb2]
        simp only [Bool.false_eq_true, if_false, ih]
        simp [passCount, failCount, failNames, List.filter_cons, hb1, hb2]

theorem jobs_foldl (jobs : List Job) (p f : Nat) (ts : List String) :
    jobs.foldl (fun a j => (j.steps.getD []).foldl Part000.stepAccum a) (p, f, ts) =
      (p + passCount ((jobs.map (fun j => j.steps.getD [])).flatten),
       f + failCount ((jobs.map (fun j => j.steps.getD [])).flatten),
       ts ++ failNames ((jobs.map (fun j => j.steps.getD [])).flatten)) := by
  induction jobs generalizing p f ts with
  | nil => simp [passCount, failCount, failNames]
  | cons j rest ih =>
    simp only [List.foldl_cons, stepAccum_foldl, ih, List.map_cons, List.flatten_cons]
    simp [passCount, failCount, failNames, List.filter_append, Nat.add_assoc,
      List.append_assoc]

/-- Claim C6 counterexample: when the jobs fetch fails, the summarizer
returns null, not a zero-count summary object. -/
theorem summary_fetch_failure_is_null :
    Part000.fetchCheckRunDetails none = none ∧
    Part000.fetchCheckRunDetails none ≠ some ⟨0, 0, [], 0⟩ := by
  refine ⟨by decide, by decide⟩

/-- Claim C6 as amended: on a successful fetch the summarizer counts
exactly the steps (across all jobs) with conclusion `success` as passed
and exactly those with conclusion `failure` as failed, recording the
failed step names verbatim and in order, and counting every other
conclusion in neither bucket; on a failed fetch it yields null, which the
message builder renders identically to a zero-count summary (no Checks
field). -/
theorem check_run_classification :
    Part000.fetchCheckRunDetails none = none ∧
    ∀ jobsData : JobsData,
      Part000.fetchCheckRunDetails (some jobsData) =
        some ⟨passCount (((jobsData.jobs.getD []).map (fun j => j.steps.getD [])).flatten),
              failCount (((jobsData.jobs.getD []).map (fun j => j.steps.getD [])).flatten),
              failNames (((jobsData.jobs.getD []).map (fun j => j.steps.getD [])).flatten),
              passCount (((jobsData.jobs.getD []).map (fun j => j.steps.getD [])).flatten) +
                failCount (((jobsData.jobs.getD []).map (fun j => j.steps.getD [])).flatten)⟩ := by
  refine ⟨rfl, fun jobsData => ?_⟩
  simp [Part000.fetchCheckRunDetails, jobs_foldl]

/-- Claim C8: the formatting step is a pure function of the enriched
data, so identical inputs give byte-identical serialized payloads, in
`index.js` (`JSON.stringify({embeds: [embed]})`) as well as in the
express variant (`JSON.stringify(discordMessage)`). -/
theorem formatter_deterministic (d1 d2 : IndexJs.FormatInput) (h : d1 = d2)
    (i1 i2 : Part000.NotifyInput) (h2 : i1 = i2) :
    IndexJs.embedPayload d1 = IndexJs.embedPayload d2 ∧
    Part000.messageBody i1 = Part000.messageBody i2 := by
  subst h; subst h2; exact ⟨rfl, rfl⟩

/-- A concrete formatter input for the determinism witness. -/
def detInput : IndexJs.FormatInput := ⟨"build", 3, some "success", "", 12, 2, [], 40, 5⟩

/-- A concrete notification input for the determinism witness. -/
def detNotify : Part000.NotifyInput :=
  ⟨some "failure", "apk", some ⟨1, 1, ["unit tests"], 2⟩, some ⟨3, 1, 4, 1, 1, 0, 2⟩⟩

/-- Witness for claim C8 at concrete inputs. -/
theorem formatter_deterministic_witness :
    detInput = detInput ∧ detNotify = detNotify ∧
    (IndexJs.embedPayload detInput = IndexJs.embedPayload detInput ∧
     Part000.messageBody detNotify = Part000.messageBody detNotify) :=
  ⟨rfl, rfl, formatter_deterministic detInput detInput rfl detNotify detNotify rfl⟩

theorem stat_fields_mem (d : IndexJs.FormatInput) :
    (⟨IndexJs.nameLinesAdded, "**+" ++ toLocaleString d.locAdded ++ "** lines", true⟩ :
        EmbedField) ∈ (IndexJs.formatEmbed d).fields ∧
    (⟨IndexJs.nameFilesChanged,
        "**" ++ toString d.filesChanged ++ "** file" ++ (if d.filesChanged != 1 then "s" else ""),
        true⟩ : EmbedField) ∈ (IndexJs.formatEmbed d).fields ∧
    (⟨IndexJs.nameTotalFiles, "**" ++ toLocaleString d.totalBranchFiles ++ "** files", true⟩ :
        EmbedField) ∈ (IndexJs.formatEmbed d).fields ∧
    (⟨IndexJs.nameTotalLOC, "**" ++ toLocaleString d.totalBranchLOC ++ "** lines", true⟩ :
        EmbedField) ∈ (IndexJs.formatEmbed d).fields := by
  have hpre : (⟨IndexJs.nameLinesAdded, "**+" ++ toLocaleString d.locAdded ++ "** lines", true⟩ :
        EmbedField) ∈ IndexJs.preFields d ∧
      (⟨IndexJs.nameFilesChanged,
        "**" ++ toString d.filesChanged ++ "** file" ++ (if d.filesChanged != 1 then "s" else ""),
        true⟩ : EmbedField) ∈ IndexJs.preFields d := by
    by_cases h : IndexJs.isFailed d.conclusion && d.failedJobsText != "" <;>
      simp [IndexJs.preFields, h]
  have htail : (⟨IndexJs.nameTotalFiles,
        "**" ++ toLocaleString d.totalBranchFiles ++ "** files", true⟩ : EmbedField) ∈
          IndexJs.tailFields d ∧
      (⟨IndexJs.nameTotalLOC, "**" ++ toLocaleString d.totalBranchLOC ++ "** lines", true⟩ :
        EmbedField) ∈ IndexJs.tailFields d := by
    simp [IndexJs.tailFields]
  refine ⟨?_, ?_, ?_, ?_⟩ <;> simp only [IndexJs.formatEmbed, List.mem_append] <;> tauto

/-- Claim C10: every embed `index.js` emits carries the four statistics
fields, and when both the commit lookup and the branch walk fail the
respective values render as zero — indistinguishable from a commit that
genuinely added no lines and a branch with no files. -/
theorem stat_fields_always_present_and_zero_on_failure :
    (∀ d : IndexJs.FormatInput,
      IndexJs.nameLinesAdded ∈ (IndexJs.formatEmbed d).fields.map EmbedField.name ∧
      IndexJs.nameFilesChanged ∈ (IndexJs.formatEmbed d).fields.map EmbedField.name ∧
      IndexJs.nameTotalFiles ∈ (IndexJs.formatEmbed d).fields.map EmbedField.name ∧
      IndexJs.nameTotalLOC ∈ (IndexJs.formatEmbed d).fields.map EmbedField.name) ∧
    (∀ (payload : Payload) (run : WRun) (o : IndexJs.Oracles) (s : String),
      payload.workflow_run = some run → run.conclusion = some s →
      o.commit = none → o.tree = none →
      ∃ e, (IndexJs.handleWorkflowRun payload o).discordEmbed = some e ∧
        (⟨IndexJs.nameLinesAdded, "**+0** lines", true⟩ : EmbedField) ∈ e.fields ∧
        (⟨IndexJs.nameFilesChanged, "**0** files", true⟩ : EmbedField) ∈ e.fields ∧
        (⟨IndexJs.nameTotalFiles, "**0** files", true⟩ : EmbedField) ∈ e.fields ∧
        (⟨IndexJs.nameTotalLOC, "**0** lines", true⟩ : EmbedField) ∈ e.fields) := by
  constructor
  · intro d
    obtain ⟨h1, h2, h3, h4⟩ := stat_fields_mem d
    exact ⟨List.mem_map_of_mem _ h1, List.mem_map_of_mem _ h2,
      List.mem_map_of_mem _ h3, List.mem_map_of_mem _ h4⟩
  · intro payload run o s hrun hconc hcommit htree
    have hv1 : "**+" ++ toLocaleString 0 ++ "** lines" = "**+0** lines" := by decide
    have hv2 : "**" ++ toString (0 : Nat) ++ "** file" ++
        (if (0 : Nat) != 1 then "s" else "") = "**0** files" := by decide
    have hv3 : "**" ++ toLocaleString 0 ++ "** files" = "**0** files" := by decide
    have hv4 : "**" ++ toLocaleString 0 ++ "** lines" = "**0** lines" := by decide
    simp only [IndexJs.handleWorkflowRun, IndexJs.getFullBranchStats, hrun, hconc, hcommit,
      htree, ite_self, List.map_nil]
    refine ⟨_, rfl, ?_, ?_, ?_, ?_⟩ <;>
    · have hm := stat_fields_mem
        ⟨run.name, run.run_number, some s,
         if (s != "success" && truthy run.jobs_url) = true then
           IndexJs.failedJobsTextOf o.jobs else "",
         0, 0, [], 0, 0⟩
      rw [hv1] at hm
      rw [hv2] at hm
      rw [hv3] at hm
      rw [hv4] at hm
      tauto

/-- A successful run used by the claim C10 witness. -/
def runSuccess : WRun :=
  ⟨"CI", 9, some "success", "main", "https://github.test/run", "bob", "2024-01-02T00:00:00Z",
   none, some "abc123", some "owner/repo", "https://api.github.test/repos/owner/repo"⟩

/-- Payload carrying `runSuccess`. -/
def payloadSuccess : Payload := ⟨some runSuccess⟩

/-- Witness for claim C10 at a concrete payload and failing oracles. -/
theorem stat_fields_always_present_witness :
    payloadSuccess.workflow_run = some runSuccess ∧
    runSuccess.conclusion = some "success" ∧
    oraEmpty.commit = none ∧
    oraEmpty.tree = none ∧
    (∃ e, (IndexJs.handleWorkflowRun payloadSuccess oraEmpty).discordEmbed = some e ∧
      (⟨IndexJs.nameLinesAdded, "**+0** lines", true⟩ : EmbedField) ∈ e.fields ∧
      (⟨IndexJs.nameFilesChanged, "**0** files", true⟩ : EmbedField) ∈ e.fields ∧
      (⟨IndexJs.nameTotalFiles, "**0** files", true⟩ : EmbedField) ∈ e.fields ∧
      (⟨IndexJs.nameTotalLOC, "**0** lines", true⟩ : EmbedField) ∈ e.fields) :=
  ⟨rfl, rfl, rfl, rfl,
   stat_fields_always_present_and_zero_on_failure.2 payloadSuccess runSuccess oraEmpty
     "success" rfl rfl rfl rfl⟩
